import Mathlib

/-!
Verification of the particle-simulation core (`src/simulation/mod.rs`,
`src/simulation/cpu.rs`, `src/app.rs`).

The Rust code computes over IEEE-754 `f32` values.  We model an `f32` as
either a finite value carried exactly as a rational, a NaN, or a signed
infinity (`F` below); finite arithmetic is exact (rounding is not modelled)
while the IEEE special-value rules (NaN propagation, `0/0 = NaN`,
`x/0 = ±inf`) are.  Transcendental functions (`cos`, `sin`, `sqrt`, `cbrt`,
`acos`), the `f32` value of `PI`, and the draw sequence of the fixed-seed
`SmallRng` are abstracted as an `FOps` bundle; theorems quantify over every
such bundle, so they hold in particular for the true `f32` functions.
-/

set_option maxHeartbeats 1000000

/-- Model of an IEEE-754 `f32` value: a finite value carried exactly as a
rational, a NaN, or a signed infinity (`positive = true` for `+inf`). -/
inductive F where
  | fin (q : ℚ)
  | nan
  | inf (positive : Bool)
deriving DecidableEq, Repr

/-- IEEE negation. -/
def F.neg : F → F
  | .fin q => .fin (-q)
  | .nan => .nan
  | .inf b => .inf (!b)

/-- IEEE addition (exact on finite values). -/
def F.add : F → F → F
  | .nan, _ => .nan
  | _, .nan => .nan
  | .inf a, .inf b => if a = b then .inf a else .nan
  | .inf a, .fin _ => .inf a
  | .fin _, .inf b => .inf b
  | .fin a, .fin b => .fin (a + b)

/-- IEEE subtraction. -/
def F.sub (a b : F) : F := F.add a (F.neg b)

/-- IEEE multiplication (exact on finite values). -/
def F.mul : F → F → F
  | .nan, _ => .nan
  | _, .nan => .nan
  | .inf a, .inf b => .inf (a == b)
  | .inf s, .fin q => if q = 0 then .nan else if 0 < q then .inf s else .inf (!s)
  | .fin q, .inf s => if q = 0 then .nan else if 0 < q then .inf s else .inf (!s)
  | .fin a, .fin b => .fin (a * b)

/-- IEEE division: `0/0` is NaN, a nonzero finite value over zero is a signed
infinity, finite division is exact. -/
def F.div : F → F → F
  | .nan, _ => .nan
  | _, .nan => .nan
  | .inf _, .inf _ => .nan
  | .inf s, .fin q => if q < 0 then .inf (!s) else .inf s
  | .fin _, .inf _ => .fin 0
  | .fin a, .fin b =>
      if b = 0 then (if a = 0 then .nan else if 0 < a then .inf true else .inf false)
      else .fin (a / b)

/-- IEEE `<` (false whenever an operand is NaN). -/
def F.lt : F → F → Bool
  | .nan, _ => false
  | _, .nan => false
  | .inf a, .inf b => !a && b
  | .inf a, .fin _ => !a
  | .fin _, .inf b => b
  | .fin a, .fin b => a < b

/-- IEEE `≤` (false whenever an operand is NaN). -/
def F.le : F → F → Bool
  | .nan, _ => false
  | _, .nan => false
  | .inf a, .inf b => a == b || (!a && b)
  | .inf a, .fin _ => !a
  | .fin _, .inf b => b
  | .fin a, .fin b => a ≤ b

/-- Rust `f32::min`: if one argument is NaN the other is returned. -/
def F.fmin (a b : F) : F :=
  if a = .nan then b else if b = .nan then a else if F.lt a b then a else b

/-- Rust `f32::max`: if one argument is NaN the other is returned. -/
def F.fmax (a b : F) : F :=
  if a = .nan then b else if b = .nan then a else if F.lt b a then a else b

/-- Rust `f32::clamp` (returns NaN on NaN input). -/
def F.clamp (x lo hi : F) : F :=
  if F.lt x lo then lo else if F.lt hi x then hi else x

/-- Rust `.powi(2)`. -/
def F.powi2 (x : F) : F := F.mul x x

/-- Model of `glam::Vec3` over model floats. -/
structure Vec3 where
  x : F
  y : F
  z : F
deriving DecidableEq, Repr

/-- Model of `glam::Vec4` over model floats. -/
structure Vec4 where
  x : F
  y : F
  z : F
  w : F
deriving DecidableEq, Repr

/-- Componentwise vector addition. -/
def vadd (a b : Vec3) : Vec3 := ⟨F.add a.x b.x, F.add a.y b.y, F.add a.z b.z⟩

/-- Componentwise vector subtraction. -/
def vsub (a b : Vec3) : Vec3 := ⟨F.sub a.x b.x, F.sub a.y b.y, F.sub a.z b.z⟩

/-- `Vec3 * f32` (componentwise scale). -/
def vscale (v : Vec3) (s : F) : Vec3 := ⟨F.mul v.x s, F.mul v.y s, F.mul v.z s⟩

/-- `Vec3 / f32` (componentwise division by a scalar). -/
def vdivs (v : Vec3) (s : F) : Vec3 := ⟨F.div v.x s, F.div v.y s, F.div v.z s⟩

/-- `glam::Vec3::ZERO`. -/
def vzero : Vec3 := ⟨F.fin 0, F.fin 0, F.fin 0⟩

/-- `glam::Vec3::ONE`. -/
def vone : Vec3 := ⟨F.fin 1, F.fin 1, F.fin 1⟩

/-- The transcendental `f32` operations used by the simulation, the `f32`
value of `std::f32::consts::PI`, and the draw sequence of Rust's
`rand::rngs::SmallRng` modelled abstractly: `rand seed k` is the value of the
`k`-th `rng.random::<f32>()` draw of a generator built by
`SmallRng::seed_from_u64 seed`.  Their values are left unconstrained;
theorems quantified over an `FOps` hold for the real `f32` functions. -/
structure FOps where
  pi : ℚ
  cos : ℚ → F
  sin : ℚ → F
  sqrt : ℚ → F
  cbrt : ℚ → F
  acos : ℚ → F
  rand : Nat → Nat → ℚ

/-- `f32::cos` lifted to model floats (NaN on NaN or infinite input). -/
def cosF (ops : FOps) : F → F
  | .fin q => ops.cos q
  | _ => .nan

/-- `f32::sin` lifted to model floats. -/
def sinF (ops : FOps) : F → F
  | .fin q => ops.sin q
  | _ => .nan

/-- `f32::acos` lifted to model floats. -/
def acosF (ops : FOps) : F → F
  | .fin q => ops.acos q
  | _ => .nan

/-- `f32::sqrt` lifted to model floats (`sqrt (+inf) = +inf`,
`sqrt (-inf) = NaN`, NaN propagates). -/
def sqrtF (ops : FOps) : F → F
  | .fin q => ops.sqrt q
  | .nan => .nan
  | .inf true => .inf true
  | .inf false => .nan

/-- `f32::cbrt` lifted to model floats (infinities pass through). -/
def cbrtF (ops : FOps) : F → F
  | .fin q => ops.cbrt q
  | .nan => .nan
  | .inf s => .inf s

/-- `glam::Vec3::length`: `sqrt (x*x + y*y + z*z)`. -/
def vlength (ops : FOps) (v : Vec3) : F :=
  sqrtF ops (F.add (F.add (F.mul v.x v.x) (F.mul v.y v.y)) (F.mul v.z v.z))

/-- `glam::Vec3::normalize`: `self * self.length().recip()`. -/
def vnormalize (ops : FOps) (v : Vec3) : Vec3 :=
  vscale v (F.div (F.fin 1) (vlength ops v))

/-- `SphereGeneration` from `src/simulation/mod.rs`. -/
inductive SphereGeneration where
  | Hollow
  | Filled
deriving DecidableEq, Repr

/-- The `Particle` struct from `src/simulation/mod.rs` (field for field,
including the two explicit padding fields). -/
structure Particle where
  position : Vec3
  padding1 : F
  velocity : Vec3
  padding2 : F
  color : Vec4
  initial_color : Vec4
deriving DecidableEq, Repr

instance : Inhabited Particle :=
  ⟨⟨vzero, F.fin 0, vzero, F.fin 0, ⟨F.fin 0, F.fin 0, F.fin 0, F.fin 0⟩,
    ⟨F.fin 0, F.fin 0, F.fin 0, F.fin 0⟩⟩⟩

/-- `Particle::new` from `src/simulation/mod.rs`. -/
def Particle.new (position velocity : Vec3) (initColor : Vec4) : Particle :=
  { position := position
    padding1 := F.fin 0
    velocity := velocity
    padding2 := F.fin 0
    color := initColor
    initial_color := initColor }

/-- `PI * (3.0 - 5.0_f32.sqrt())` from the Hollow branch of
`generate_initial_particles`. -/
def golden_angle (ops : FOps) : F :=
  F.mul (F.fin ops.pi) (F.sub (F.fin 3) (ops.sqrt 5))

/-- The particle built by iteration `i` of the `Hollow` loop of
`generate_initial_particles` (`src/simulation/mod.rs` lines 150-167).  Note
the divisor `count.max 1 - 1` and that the division is IEEE: at `count = 1`
it is `0.0 / 0.0 = NaN`. -/
def hollowParticle (ops : FOps) (count i : Nat) : Particle :=
  let y := F.sub (F.fin 1)
    (F.mul (F.div (F.fin (i : ℚ)) (F.fin ((count.max 1 - 1 : Nat) : ℚ))) (F.fin 2))
  let radius_at_y := sqrtF ops (F.sub (F.fin 1) (F.mul y y))
  let theta := F.mul (golden_angle ops) (F.fin (i : ℚ))
  let x := F.mul (cosF ops theta) radius_at_y
  let z := F.mul (sinF ops theta) radius_at_y
  let pos := vscale (Vec3.mk x y z) (F.fin 50)
  let vel := vzero
  let norm_pos := vscale (vadd (vdivs pos (F.fin 50)) vone) (F.fin (1/2))
  Particle.new pos vel (Vec4.mk norm_pos.x norm_pos.y norm_pos.z (F.fin 1))

/-- The particle built by iteration `i` of the `Filled` loop of
`generate_initial_particles` (`src/simulation/mod.rs` lines 168-188).  The
source threads a `SmallRng` seeded with the fixed constant `69`; each
iteration consumes three draws, so iteration `i` sees draws `3*i`, `3*i+1`
and `3*i+2` of that generator's deterministic stream. -/
def filledParticle (ops : FOps) (i : Nat) : Particle :=
  let r := F.mul (F.fin 50) (cbrtF ops (F.fin (ops.rand 69 (3 * i))))
  let theta := F.mul (F.mul (F.fin (ops.rand 69 (3 * i + 1))) (F.fin 2)) (F.fin ops.pi)
  let phi := acosF ops (F.sub (F.mul (F.fin (ops.rand 69 (3 * i + 2))) (F.fin 2)) (F.fin 1))
  let x := F.mul (F.mul r (sinF ops phi)) (cosF ops theta)
  let y := F.mul r (cosF ops phi)
  let z := F.mul (F.mul r (sinF ops phi)) (sinF ops theta)
  let pos := Vec3.mk x y z
  let norm_pos := vscale (vadd (vdivs pos (F.fin 50)) vone) (F.fin (1/2))
  Particle.new pos vzero (Vec4.mk norm_pos.x norm_pos.y norm_pos.z (F.fin 1))

/-- `generate_initial_particles` from `src/simulation/mod.rs`.  The extra
`_ambient` argument models the ambient OS entropy available to the process;
the source seeds its RNG with the fixed constant `69` and never consults
ambient entropy, which is why the argument is unused. -/
def generate_initial_particles (ops : FOps) (count : Nat) (mode : SphereGeneration)
    (_ambient : Nat) : List Particle :=
  match mode with
  | .Hollow => (List.range count).map (hollowParticle ops count)
  | .Filled => (List.range count).map (filledParticle ops)

/-- A concrete instantiation of the abstract transcendental operations and
RNG stream, used to evaluate the model at specific inputs in statements whose
truth does not depend on the values these operations return. -/
def stubOps : FOps :=
  { pi := 3
    cos := fun _ => F.fin 0
    sin := fun _ => F.fin 0
    sqrt := fun _ => F.fin 0
    cbrt := fun _ => F.fin 0
    acos := fun _ => F.fin 0
    rand := fun _ _ => 0 }

/-- The `SimParams` struct from `src/simulation/mod.rs` (the two `u32`
fields are natural numbers; the trailing GPU padding word is omitted as it
carries no simulation meaning). -/
structure SimParams where
  delta_time : F
  gravity : F
  color_mode : Nat
  mouse_force : F
  mouse_radius : F
  is_mouse_dragging : Nat
  damping : F
  max_dist_for_color : F
  mouse_position : Vec3
deriving DecidableEq, Repr

/-- The per-particle body of `CpuParticleSimulation::update`
(`src/simulation/cpu.rs` lines 65-113): gravity into velocity, optional
mouse force, position integration with the already-gravity-updated velocity,
damping, then the color rule selected by `color_mode`. -/
def cpuStepParticle (ops : FOps) (params : SimParams) (p : Particle) : Particle :=
  let position := p.position
  let velocity := p.velocity
  let velocity :=
    { velocity with y := F.sub velocity.y (F.mul params.gravity params.delta_time) }
  let velocity :=
    if params.is_mouse_dragging > 0 then
      let dir := vsub params.mouse_position position
      let dist := vlength ops dir
      if F.lt dist (F.mul params.mouse_radius (F.fin 2)) then
        let force_factor :=
          F.mul (F.powi2 (F.sub (F.fin 1) (F.div dist (F.mul params.mouse_radius (F.fin 2)))))
            (F.fin 2)
        let force := vscale (vscale (vnormalize ops dir) params.mouse_force) force_factor
        vadd velocity (vscale force params.delta_time)
      else velocity
    else velocity
  let position := vadd position (vscale velocity params.delta_time)
  let velocity := vscale velocity params.damping
  let color :=
    match params.color_mode with
    | 1 =>
      let speed := vlength ops velocity
      let norm_speed := F.fmin (F.div speed (F.fin 5)) (F.fin 1)
      Vec4.mk norm_speed (F.sub (F.fin (1/2)) (F.mul norm_speed (F.fin (1/2))))
        (F.sub (F.fin 1) norm_speed) (F.fin 1)
    | 2 =>
      let dist_from_origin := vlength ops position
      let norm_dist :=
        F.clamp (F.div dist_from_origin (F.fmax params.max_dist_for_color (F.fin (1/100))))
          (F.fin 0) (F.fin 1)
      Vec4.mk norm_dist (F.fin 0) (F.sub (F.fin 1) norm_dist) (F.fin 1)
    | _ => p.color
  { p with position := position, velocity := velocity, color := color }

/-- The state of `CpuParticleSimulation` (`src/simulation/cpu.rs`).  The
GPU-resident `wgpu::Buffer` is modelled by the list of particle records it
holds (`particle_buffer`). -/
structure CpuParticleSimulation where
  particles : List Particle
  particle_buffer : List Particle
  particle_count : Nat
  paused : Bool
  generation_mode : SphereGeneration
deriving DecidableEq, Repr

/-- `wgpu::Queue::write_buffer(buffer, 0, data)`: overwrite the records at
the start of the buffer with `data`, keeping the rest of the buffer. -/
def write_buffer (buffer data : List Particle) : List Particle :=
  data ++ buffer.drop data.length

/-- `CpuParticleSimulation::new` (`src/simulation/cpu.rs` lines 16-37):
generates the initial particles and creates the GPU buffer initialised with
the full particle vector. -/
def CpuParticleSimulation.new (ops : FOps) (initial_particle_count : Nat)
    (generation_mode : SphereGeneration) (ambient : Nat) : CpuParticleSimulation :=
  let particles := generate_initial_particles ops initial_particle_count generation_mode ambient
  { particles := particles
    particle_buffer := particles
    particle_count := initial_particle_count
    paused := false
    generation_mode := generation_mode }

/-- `CpuParticleSimulation::update` (`src/simulation/cpu.rs` lines 39-121).
The `if self.paused { return; }` guard present in the source is commented
out, so the body runs unconditionally: the first `particle_count` particles
are stepped and the stepped slice is uploaded to the GPU buffer at offset 0. -/
def CpuParticleSimulation.update (ops : FOps) (s : CpuParticleSimulation)
    (params : SimParams) : CpuParticleSimulation :=
  let stepped := (s.particles.take s.particle_count).map (cpuStepParticle ops params)
  { s with
    particles := stepped ++ s.particles.drop s.particle_count
    particle_buffer := write_buffer s.particle_buffer stepped }

/-- `CpuParticleSimulation::resize_buffer` (`src/simulation/cpu.rs` lines
123-158): records the new generation mode, returns early when the count is
unchanged, appends freshly generated particles (and recreates the buffer
from the full vector) only when the new count exceeds the vector length,
then uploads the first `new_count` records. -/
def CpuParticleSimulation.resize_buffer (ops : FOps) (s : CpuParticleSimulation)
    (new_count : Nat) (generation_mode : SphereGeneration) : CpuParticleSimulation :=
  let s := { s with generation_mode := generation_mode }
  if new_count = s.particle_count then s
  else
    let s :=
      if s.particles.length < new_count then
        let new_particles :=
          generate_initial_particles ops (new_count - s.particles.length) generation_mode 0
        let particles := s.particles ++ new_particles
        { s with particles := particles, particle_buffer := particles }
      else s
    let s := { s with particle_count := new_count }
    { s with particle_buffer := write_buffer s.particle_buffer (s.particles.take new_count) }

/-- `CpuParticleSimulation::reset` (`src/simulation/cpu.rs` lines 172-186):
regenerates the particle vector from the current count and the given mode,
then uploads the first `particle_count` records. -/
def CpuParticleSimulation.reset (ops : FOps) (s : CpuParticleSimulation)
    (generation_mode : SphereGeneration) : CpuParticleSimulation :=
  let s := { s with generation_mode := generation_mode }
  let particles := generate_initial_particles ops s.particle_count generation_mode 0
  { s with
    particles := particles
    particle_buffer := write_buffer s.particle_buffer (particles.take s.particle_count) }

/-- `CpuParticleSimulation::is_paused`. -/
def CpuParticleSimulation.is_paused (s : CpuParticleSimulation) : Bool := s.paused

/-- `CpuParticleSimulation::set_paused`. -/
def CpuParticleSimulation.set_paused (s : CpuParticleSimulation) (paused : Bool) :
    CpuParticleSimulation :=
  { s with paused := paused }

/-- The simulation-relevant state of `ParticleApp` (`src/app.rs`), with the
CPU strategy active.  Rendering, camera and UI bookkeeping are omitted;
`gravity` and the other parameter fields are the app fields from which
`SimParams` is rebuilt every frame. -/
structure ParticleApp where
  simulation : CpuParticleSimulation
  gravity : F
  color_mode : Nat
  mouse_force : F
  mouse_radius : F
  mouse_position : Vec3
  max_dist_for_color : F
  generation_mode : SphereGeneration
  mouse_dragging : Bool
deriving DecidableEq, Repr

/-- The simulation portion of `ParticleApp::update_simulation`
(`src/app.rs` lines 282-316): when the simulation is not paused, a
`SimParams` is built from the live app fields (damping hardcoded to `0.99`)
and the strategy's `update` is invoked; when paused the whole block is
skipped. -/
def ParticleApp.update_simulation (ops : FOps) (app : ParticleApp) (delta_time : F) :
    ParticleApp :=
  if !app.simulation.is_paused then
    let sim_params : SimParams :=
      { delta_time := delta_time
        gravity := app.gravity
        color_mode := app.color_mode
        mouse_force := app.mouse_force
        mouse_radius := app.mouse_radius
        is_mouse_dragging := if app.mouse_dragging then 1 else 0
        damping := F.fin (99/100)
        max_dist_for_color := app.max_dist_for_color
        mouse_position := app.mouse_position }
    { app with simulation := app.simulation.update ops sim_params }
  else app

/-- The handler of the UI Reset button (`src/app.rs` lines 335-344): it
calls `simulation.reset(device, queue, self.generation_mode)` and nothing
else — in particular it does not touch `self.gravity`. -/
def ParticleApp.reset_clicked (ops : FOps) (app : ParticleApp) : ParticleApp :=
  { app with simulation := app.simulation.reset ops app.generation_mode }

/-- The parameter block of the spec's end-to-end scenario: `delta_time = 1`,
`gravity = 1`, `damping = 1`, `is_mouse_dragging = false`, remaining fields
at their defaults. -/
def unitParams : SimParams :=
  { delta_time := F.fin 1
    gravity := F.fin 1
    color_mode := 0
    mouse_force := F.fin 5
    mouse_radius := F.fin 10
    is_mouse_dragging := 0
    damping := F.fin 1
    max_dist_for_color := F.fin 50
    mouse_position := vzero }


theorem F.nan_mul (a : F) : F.mul F.nan a = F.nan := by cases a <;> rfl

theorem F.mul_nan (a : F) : F.mul a F.nan = F.nan := by cases a <;> rfl

theorem F.nan_add (a : F) : F.add F.nan a = F.nan := by cases a <;> rfl

theorem F.add_nan (a : F) : F.add a F.nan = F.nan := by cases a <;> rfl

theorem F.nan_sub (a : F) : F.sub F.nan a = F.nan := by cases a <;> rfl

theorem F.sub_nan (a : F) : F.sub a F.nan = F.nan := by cases a <;> rfl

@[simp]
theorem F.add_fin (a b : ℚ) : F.add (F.fin a) (F.fin b) = F.fin (a + b) := rfl

@[simp]
theorem F.sub_fin (a b : ℚ) : F.sub (F.fin a) (F.fin b) = F.fin (a - b) := by
  show F.fin (a + -b) = F.fin (a - b)
  rw [sub_eq_add_neg]

@[simp]
theorem F.mul_fin (a b : ℚ) : F.mul (F.fin a) (F.fin b) = F.fin (a * b) := rfl

@[simp]
theorem F.neg_fin (a : ℚ) : F.neg (F.fin a) = F.fin (-a) := rfl

theorem F.div_fin (a b : ℚ) (h : b ≠ 0) : F.div (F.fin a) (F.fin b) = F.fin (a / b) := by
  simp [F.div, h]

theorem generate_length (ops : FOps) (count : Nat) (mode : SphereGeneration) (amb : Nat) :
    (generate_initial_particles ops count mode amb).length = count := by
  cases mode <;> simp [generate_initial_particles]

theorem generate_velocity_eq (ops : FOps) (count : Nat) (mode : SphereGeneration) (amb : Nat) :
    ∀ p ∈ generate_initial_particles ops count mode amb, p.velocity = vzero := by
  cases mode <;>
    · intro p hp
      simp only [generate_initial_particles, List.mem_map, List.mem_range] at hp
      obtain ⟨i, _, rfl⟩ := hp
      rfl

/-- Claim C8 (confirmed): `generate_initial_particles` is deterministic for
every count and both modes — its result does not depend on the ambient
process entropy, because the Filled branch seeds its RNG with the fixed
constant 69 and the Hollow branch uses no randomness at all. -/
theorem C8_generation_deterministic (ops : FOps) (count : Nat) (mode : SphereGeneration)
    (amb1 amb2 : Nat) :
    generate_initial_particles ops count mode amb1 =
      generate_initial_particles ops count mode amb2 := rfl

/-- Claim C10 (confirmed): every particle produced by
`generate_initial_particles`, for every count and both modes, has zero
velocity, color equal to its initial color, color alpha 1.0, and both
padding fields 0.0. -/
theorem C10_generated_invariants (ops : FOps) (count : Nat) (mode : SphereGeneration)
    (amb : Nat) :
    ∀ p ∈ generate_initial_particles ops count mode amb,
      p.velocity = vzero ∧ p.color = p.initial_color ∧ p.color.w = F.fin 1 ∧
        p.padding1 = F.fin 0 ∧ p.padding2 = F.fin 0 := by
  cases mode <;>
    · intro p hp
      simp only [generate_initial_particles, List.mem_map, List.mem_range] at hp
      obtain ⟨i, _, rfl⟩ := hp
      exact ⟨rfl, rfl, rfl, rfl, rfl⟩

/-- Witness for C10: the first particle of a concrete Hollow generation. -/
theorem C10_generated_invariants_witness :
    hollowParticle stubOps 2 0 ∈ generate_initial_particles stubOps 2 .Hollow 0 ∧
      (hollowParticle stubOps 2 0).velocity = vzero ∧
      (hollowParticle stubOps 2 0).color = (hollowParticle stubOps 2 0).initial_color ∧
      (hollowParticle stubOps 2 0).color.w = F.fin 1 ∧
      (hollowParticle stubOps 2 0).padding1 = F.fin 0 ∧
      (hollowParticle stubOps 2 0).padding2 = F.fin 0 := by
  have hm : hollowParticle stubOps 2 0 ∈ generate_initial_particles stubOps 2 .Hollow 0 := by
    simp [generate_initial_particles, List.range_succ]
  exact ⟨hm, C10_generated_invariants stubOps 2 .Hollow 0 _ hm⟩

/-- Claim C7 (corrected): a request for zero particles is a valid degenerate
state — the generator returns the empty particle set, so the loop body and
its division are never evaluated — and the `count.max 1` guard keeps the
`u32` subtraction `count.max 1 - 1` from underflowing for every count.  The
original claim's further assertion that the division is never evaluated on a
zero divisor for counts ≤ 1 is refuted by `C7_counterexample`: at count = 1
the divisor is 0 and the division (IEEE `0.0 / 0.0`) is evaluated, yielding
NaN rather than a panic. -/
theorem C7_zero_count_valid (ops : FOps) (mode : SphereGeneration) (amb : Nat) :
    generate_initial_particles ops 0 mode amb = [] ∧ ∀ count : Nat, 1 ≤ count.max 1 := by
  constructor
  · cases mode <;> rfl
  · exact fun c => Nat.le_max_right c 1

/-- Counterexample for C7 as stated: at `count = 1` in Hollow mode the
golden-angle formula's divisor `count.max 1 - 1` is 0 and the division is
evaluated (as IEEE `0.0 / 0.0`), so the generated particle's y position is
NaN; the zero-divisor case is not special-cased away. -/
theorem C7_counterexample :
    Nat.max 1 1 - 1 = 0 ∧
      ((generate_initial_particles stubOps 1 .Hollow 0).getD 0 default).position.y = F.nan := by
  constructor
  · rfl
  · simp [generate_initial_particles, List.range_succ, hollowParticle, Particle.new, vscale,
      F.div, F.nan_mul, F.sub_nan]

/-- Claim C3 (code_bug): calling `resize_buffer` with the current count but a
different generation mode does not regenerate the particle data — the
function records the new mode and returns early, leaving the particle vector
and the GPU buffer unchanged (in particular not equal to a fresh generation
with the new mode, whose first particle has a different position). -/
theorem C3_resize_mode_only_no_regen :
    ((CpuParticleSimulation.new stubOps 2 .Hollow 0).resize_buffer stubOps 2 .Filled).particles =
        (CpuParticleSimulation.new stubOps 2 .Hollow 0).particles ∧
      ((CpuParticleSimulation.new stubOps 2 .Hollow 0).resize_buffer stubOps 2
            .Filled).particle_buffer =
        (CpuParticleSimulation.new stubOps 2 .Hollow 0).particle_buffer ∧
      ((CpuParticleSimulation.new stubOps 2 .Hollow 0).resize_buffer stubOps 2
            .Filled).particle_count = 2 ∧
      ((CpuParticleSimulation.new stubOps 2 .Hollow 0).resize_buffer stubOps 2
            .Filled).generation_mode = .Filled ∧
      ((CpuParticleSimulation.new stubOps 2 .Hollow 0).resize_buffer stubOps 2
            .Filled).particles ≠ generate_initial_particles stubOps 2 .Filled 0 := by
  refine ⟨rfl, rfl, rfl, rfl, ?_⟩
  intro h
  have h2 := congrArg (fun l => (l.getD 0 default).position.y) h
  norm_num [CpuParticleSimulation.new, CpuParticleSimulation.resize_buffer,
    generate_initial_particles, List.range_succ, hollowParticle, filledParticle, Particle.new,
    vscale, F.div_fin, stubOps, cbrtF, cosF, sinF, acosF] at h2

/-- Counterexample for C4 as stated: an app whose gravity slider is at 2.0
still has gravity 2.0 (not 0) after the Reset button's handler runs. -/
theorem C4_counterexample :
    (ParticleApp.reset_clicked stubOps
          { simulation := CpuParticleSimulation.new stubOps 2 .Hollow 0
            gravity := F.fin 2
            color_mode := 0
            mouse_force := F.fin 5
            mouse_radius := F.fin 10
            mouse_position := vzero
            max_dist_for_color := F.fin 50
            generation_mode := .Hollow
            mouse_dragging := false }).gravity = F.fin 2 ∧ F.fin 2 ≠ (F.fin 0 : F) := by
  refine ⟨rfl, ?_⟩
  intro h
  have h2 := F.fin.inj h
  norm_num at h2

/-- Claim C4 (corrected): the Reset button regenerates the particle data from
the current count and generation mode — the new particle vector equals a
fresh `generate_initial_particles` call — but it performs a data reset only:
the gravity parameter is left exactly as it was, not set to 0. -/
theorem C4_reset_behavior (ops : FOps) (app : ParticleApp) :
    (app.reset_clicked ops).gravity = app.gravity ∧
      (app.reset_clicked ops).simulation.particles =
        generate_initial_particles ops app.simulation.particle_count app.generation_mode 0 ∧
      (app.reset_clicked ops).simulation.particle_count = app.simulation.particle_count :=
  ⟨rfl, rfl, rfl⟩

/-- A concrete paused CPU simulation used to exercise the pause claims. -/
def pausedSim : CpuParticleSimulation :=
  (CpuParticleSimulation.new stubOps 2 .Hollow 0).set_paused true

/-- A concrete app state whose simulation is paused. -/
def pausedApp : ParticleApp :=
  { simulation := pausedSim
    gravity := F.fin 1
    color_mode := 0
    mouse_force := F.fin 5
    mouse_radius := F.fin 10
    mouse_position := vzero
    max_dist_for_color := F.fin 50
    generation_mode := .Hollow
    mouse_dragging := false }

/-- Counterexample for C1 as stated: the strategy's `update` does not check
`paused` (the guard in the source is commented out), so invoking it on a
paused state mutates both the particle records and the GPU buffer. -/
theorem C1_counterexample :
    pausedSim.is_paused = true ∧
      (pausedSim.update stubOps unitParams).particles ≠ pausedSim.particles ∧
      (pausedSim.update stubOps unitParams).particle_buffer ≠ pausedSim.particle_buffer := by
  refine ⟨rfl, ?_, ?_⟩
  · intro h
    have h2 := congrArg (fun l => (l.getD 0 default).velocity.y) h
    norm_num [pausedSim, CpuParticleSimulation.new, CpuParticleSimulation.set_paused,
      CpuParticleSimulation.update, generate_initial_particles, List.range_succ,
      hollowParticle, Particle.new, cpuStepParticle, unitParams, vzero, vadd, vscale,
      F.div_fin, write_buffer, stubOps] at h2
  · intro h
    have h2 := congrArg (fun l => (l.getD 0 default).velocity.y) h
    norm_num [pausedSim, CpuParticleSimulation.new, CpuParticleSimulation.set_paused,
      CpuParticleSimulation.update, generate_initial_particles, List.range_succ,
      hollowParticle, Particle.new, cpuStepParticle, unitParams, vzero, vadd, vscale,
      F.div_fin, write_buffer, stubOps] at h2

/-- Claim C1 (corrected): the pause gate is enforced one level up — the
app's per-frame `update_simulation` skips the strategy update entirely when
the simulation is paused, so a paused frame mutates neither the particle
records nor the GPU buffer (the whole app state is unchanged). -/
theorem C1_pause_gate (ops : FOps) (app : ParticleApp) (dt : F)
    (h : app.simulation.paused = true) : app.update_simulation ops dt = app := by
  simp [ParticleApp.update_simulation, CpuParticleSimulation.is_paused, h]

/-- Witness for C1: the concrete paused app state is a fixed point of the
per-frame simulation step. -/
theorem C1_pause_gate_witness : pausedApp.update_simulation stubOps (F.fin 1) = pausedApp :=
  C1_pause_gate stubOps pausedApp (F.fin 1) rfl

/-- Counterexample for C5 as stated: in the end-to-end scenario (CPU
strategy, count 4, Hollow, `delta_time = gravity = damping = 1`, no
dragging), the first particle's new position does not equal its old position
plus its pre-update velocity times `delta_time`: the code integrates the
position with the velocity after gravity has been applied, so `position.y`
drops by 1 even though the pre-update velocity is zero. -/
theorem C5_counterexample :
    (((CpuParticleSimulation.new stubOps 4 .Hollow 0).update stubOps
              unitParams).particles.getD 0 default).position ≠
      vadd (((CpuParticleSimulation.new stubOps 4 .Hollow 0).particles.getD 0 default).position)
        (vscale (((CpuParticleSimulation.new stubOps 4 .Hollow 0).particles.getD 0
              default).velocity)
          unitParams.delta_time) := by
  intro h
  have h2 := congrArg Vec3.y h
  norm_num [CpuParticleSimulation.new, CpuParticleSimulation.update, generate_initial_particles,
    List.range_succ, hollowParticle, Particle.new, cpuStepParticle, unitParams, vzero, vadd,
    vscale, F.div_fin, stubOps] at h2

/-- Claim C5 (corrected): in the end-to-end scenario (CPU strategy, count 4,
Hollow, `delta_time = gravity = damping = 1`, no dragging) one update call
sets every particle's velocity to `(0, -1, 0)` — each `velocity.y`
decreases by exactly 1.0 from its initial 0 — and changes every particle's
position by the post-gravity velocity times `delta_time`, i.e. by
`(0, -1, 0)`, not by the pre-update velocity. -/
theorem C5_single_update (ops : FOps) :
    ((CpuParticleSimulation.new ops 4 .Hollow 0).update ops unitParams).particles =
      (CpuParticleSimulation.new ops 4 .Hollow 0).particles.map (fun p =>
        { p with
          position := vadd p.position (Vec3.mk (F.fin 0) (F.fin (-1)) (F.fin 0))
          velocity := Vec3.mk (F.fin 0) (F.fin (-1)) (F.fin 0) }) := by
  have hstep : ∀ p : Particle, p.velocity = vzero →
      cpuStepParticle ops unitParams p =
        { p with
          position := vadd p.position (Vec3.mk (F.fin 0) (F.fin (-1)) (F.fin 0))
          velocity := Vec3.mk (F.fin 0) (F.fin (-1)) (F.fin 0) } := by
    intro p hv
    norm_num [cpuStepParticle, unitParams, hv, vzero, vscale, vadd]
  have h1 : ((CpuParticleSimulation.new ops 4 .Hollow 0).particles).take 4 =
      (CpuParticleSimulation.new ops 4 .Hollow 0).particles := by
    rw [show (4 : Nat) = ((CpuParticleSimulation.new ops 4 .Hollow 0).particles).length from
      (generate_length ops 4 .Hollow 0).symm]
    exact List.take_length _
  have h2 : ((CpuParticleSimulation.new ops 4 .Hollow 0).particles).drop 4 = [] := by
    rw [show (4 : Nat) = ((CpuParticleSimulation.new ops 4 .Hollow 0).particles).length from
      (generate_length ops 4 .Hollow 0).symm]
    exact List.drop_length _
  show ((((CpuParticleSimulation.new ops 4 .Hollow 0).particles).take 4).map
        (cpuStepParticle ops unitParams)) ++
      ((CpuParticleSimulation.new ops 4 .Hollow 0).particles).drop 4 = _
  rw [h1, h2, List.append_nil]
  exact List.map_congr_left fun p hp =>
    hstep p (generate_velocity_eq ops 4 .Hollow 0 p hp)

/-- Claim C6 (code_bug): at `count = 1` in Hollow mode (for every
instantiation of the abstract transcendental operations, hence for the real
`f32` ones) the golden-angle formula computes `0.0 / 0.0 = NaN`, which
propagates to all three position components of the single generated
particle, so its position magnitude is not below any bound — the documented
`≤ sphere_radius + epsilon` invariant fails at this input. -/
theorem C6_nan_at_count_one (ops : FOps) :
    ((generate_initial_particles ops 1 .Hollow 0).getD 0 default).position =
        Vec3.mk F.nan F.nan F.nan ∧
      F.le (vlength ops
          (((generate_initial_particles ops 1 .Hollow 0).getD 0 default).position))
        (F.fin 51) = false := by
  have h1 : ((generate_initial_particles ops 1 .Hollow 0).getD 0 default).position =
      Vec3.mk F.nan F.nan F.nan := by
    simp [generate_initial_particles, List.range_succ, hollowParticle, Particle.new, vscale,
      F.div, F.nan_mul, F.mul_nan, F.sub_nan, F.nan_sub, sqrtF]
  refine ⟨h1, ?_⟩
  rw [h1]
  simp [vlength, F.nan_mul, F.nan_add, sqrtF, F.le]

/-- The simulation state after advancing two Hollow particles one step and
then shrinking the logical count to 1: the internal vector still holds both
(now advanced) particles, only the count dropped. -/
def c2base : CpuParticleSimulation :=
  ((CpuParticleSimulation.new stubOps 2 .Hollow 0).update stubOps unitParams).resize_buffer
    stubOps 1 .Hollow

/-- Counterexample for C2 as stated: from `c2base` (current count `n1 = 1`,
internal vector length 2), calling `resize(1)` then `resize(2)` leaves index
1 holding the previously advanced particle — its velocity is nonzero, while
every freshly generated particle has zero velocity, and the range `[1, 2)`
does not equal a fresh generator call. -/
theorem C2_counterexample :
    c2base.particle_count = 1 ∧
      (((c2base.resize_buffer stubOps 1 .Hollow).resize_buffer stubOps 2
                .Hollow).particles.getD 1 default).velocity ≠ vzero ∧
      ((c2base.resize_buffer stubOps 1 .Hollow).resize_buffer stubOps 2
            .Hollow).particles.drop 1 ≠ generate_initial_particles stubOps 1 .Hollow 0 := by
  refine ⟨rfl, ?_, ?_⟩
  · intro h
    have h2 := congrArg Vec3.y h
    norm_num [c2base, CpuParticleSimulation.new, CpuParticleSimulation.update,
      CpuParticleSimulation.resize_buffer, generate_initial_particles, List.range_succ,
      hollowParticle, Particle.new, cpuStepParticle, unitParams, vzero, vadd, vscale,
      F.div_fin, write_buffer, stubOps] at h2
  · intro h
    have h2 := congrArg (fun l => (l.getD 0 default).velocity.y) h
    norm_num [c2base, CpuParticleSimulation.new, CpuParticleSimulation.update,
      CpuParticleSimulation.resize_buffer, generate_initial_particles, List.range_succ,
      hollowParticle, Particle.new, cpuStepParticle, unitParams, vzero, vadd, vscale,
      F.div_fin, write_buffer, stubOps] at h2

/-- Claim C2 (corrected, CPU strategy): from any state whose logical count
does not exceed the internal vector length `L`, calling `resize(n1)` with
the current count `n1` and then `resize(n2)` with `n2 > L` keeps every
existing particle (in particular the first `n1` are unchanged) and appends
exactly `generate(n2 - L)` freshly generated particles; fresh generation
covers `[L, n2)`, not all of `[n1, n2)`, since indices in `[n1, L)` reuse
particles retained from an earlier shrink. -/
theorem C2_resize_grow (ops : FOps) (s : CpuParticleSimulation) (n2 : Nat)
    (mode : SphereGeneration) (h1 : s.particle_count ≤ s.particles.length)
    (h2 : s.particles.length < n2) :
    ((s.resize_buffer ops s.particle_count mode).resize_buffer ops n2 mode).particles =
        s.particles ++
          generate_initial_particles ops (n2 - s.particles.length) mode 0 ∧
      ((s.resize_buffer ops s.particle_count mode).resize_buffer ops n2 mode).particle_count =
        n2 := by
  have hne : ¬ (n2 = s.particle_count) := by omega
  simp [CpuParticleSimulation.resize_buffer, hne, h2]

/-- Witness for C2: grow a fresh two-particle state to three particles. -/
theorem C2_resize_grow_witness :
    (((CpuParticleSimulation.new stubOps 2 .Hollow 0).resize_buffer stubOps
              ((CpuParticleSimulation.new stubOps 2 .Hollow 0).particle_count)
              .Hollow).resize_buffer stubOps 3 .Hollow).particles =
        (CpuParticleSimulation.new stubOps 2 .Hollow 0).particles ++
          generate_initial_particles stubOps
            (3 - (CpuParticleSimulation.new stubOps 2 .Hollow 0).particles.length) .Hollow 0 ∧
      (((CpuParticleSimulation.new stubOps 2 .Hollow 0).resize_buffer stubOps
              ((CpuParticleSimulation.new stubOps 2 .Hollow 0).particle_count)
              .Hollow).resize_buffer stubOps 3 .Hollow).particle_count = 3 :=
  C2_resize_grow stubOps (CpuParticleSimulation.new stubOps 2 .Hollow 0) 3 .Hollow
    (by decide) (by decide)

/-- Claim C9 (confirmed): when the logical count `n` does not exceed the
internal vector length, `update` steps exactly the first `n` particles,
leaves the particles at indices `n` and beyond unchanged, and the bulk GPU
upload overwrites exactly the first `n` records of the buffer (the stepped
prefix), keeping the buffer's tail. -/
theorem C9_update_active_range (ops : FOps) (s : CpuParticleSimulation) (params : SimParams)
    (h : s.particle_count ≤ s.particles.length) :
    ((s.update ops params).particles.drop s.particle_count =
        s.particles.drop s.particle_count) ∧
      ((s.update ops params).particles.take s.particle_count =
        (s.particles.take s.particle_count).map (cpuStepParticle ops params)) ∧
      ((s.update ops params).particle_buffer =
        ((s.particles.take s.particle_count).map (cpuStepParticle ops params)) ++
          s.particle_buffer.drop s.particle_count) := by
  have hlen : ((s.particles.take s.particle_count).map (cpuStepParticle ops params)).length =
      s.particle_count := by
    simp [List.length_take, Nat.min_eq_left h]
  refine ⟨?_, ?_, ?_⟩
  · show ((((s.particles.take s.particle_count).map (cpuStepParticle ops params)) ++
        s.particles.drop s.particle_count).drop s.particle_count) = _
    exact List.drop_left' hlen
  · show ((((s.particles.take s.particle_count).map (cpuStepParticle ops params)) ++
        s.particles.drop s.particle_count).take s.particle_count) = _
    exact List.take_left' hlen
  · show write_buffer s.particle_buffer
        ((s.particles.take s.particle_count).map (cpuStepParticle ops params)) = _
    rw [write_buffer, hlen]

/-- The simulation state after shrinking a two-particle state to logical
count 1: the vector still holds two particles. -/
def shrunkSim : CpuParticleSimulation :=
  (CpuParticleSimulation.new stubOps 2 .Hollow 0).resize_buffer stubOps 1 .Hollow

/-- Witness for C9 at a state whose count 1 is strictly below its vector
length 2. -/
theorem C9_update_active_range_witness :
    ((shrunkSim.update stubOps unitParams).particles.drop shrunkSim.particle_count =
        shrunkSim.particles.drop shrunkSim.particle_count) ∧
      ((shrunkSim.update stubOps unitParams).particles.take shrunkSim.particle_count =
        (shrunkSim.particles.take shrunkSim.particle_count).map
          (cpuStepParticle stubOps unitParams)) ∧
      ((shrunkSim.update stubOps unitParams).particle_buffer =
        ((shrunkSim.particles.take shrunkSim.particle_count).map
            (cpuStepParticle stubOps unitParams)) ++
          shrunkSim.particle_buffer.drop shrunkSim.particle_count) :=
  C9_update_active_range stubOps shrunkSim unitParams (by decide)
